import Mathlib

/-!
Verification of the download-orchestration core of a small yt-dlp front end
(`youtube.py`).  The Python source is shallowly embedded: the quality map and
option builder (`QUALITY_MAP`, `build_ydl_opts`), the job running function
(`run_download`), the GUI submission handler (`App.on_download`) together with
the widget state it mutates, the progress hook, and the CLI entry
(`run_cli`).  Python strings are Lean strings, machine-level byte counts are
naturals, fractions and progress values are rationals, exceptions are modelled
with `Except`, and the opaque yt-dlp engine is a parameter ranging over its
possible outcomes.
-/

namespace Youtube

/-! Utilities modelling the Python string operations used by the source. -/

/-- Character-level model of Python `str.strip()`: drop whitespace on both
ends. -/
def stripChars (l : List Char) : List Char :=
  ((l.dropWhile Char.isWhitespace).reverse.dropWhile Char.isWhitespace).reverse

/-- Model of Python `url.strip()`. -/
def pyStrip (s : String) : String := String.mk (stripChars s.data)

/-- Model of Python substring containment `pat in s` on character lists. -/
def containsSub (pat : List Char) : List Char → Bool
  | [] => pat.isEmpty
  | c :: cs => List.isPrefixOf pat (c :: cs) || containsSub pat cs

/-- Model of Python `a or b` for an optional byte count `a`:
`None` and `0` are falsy, so the default `b` is used for both. -/
def pyOrNat (a : Option ℕ) (b : ℕ) : ℕ :=
  match a with
  | some n => if n = 0 then b else n
  | none => b

/-- Model of Python truthiness filtering for an optional rational
(`if spd:` / `if eta:`): `None` and `0` are falsy. -/
def pyTruthy (a : Option ℚ) : Option ℚ :=
  match a with
  | some x => if x = 0 then none else some x
  | none => none

/-- Model of Python `int(x)` on a rational: truncation toward zero. -/
def pyInt (x : ℚ) : ℤ := if x < 0 then -⌊-x⌋ else ⌊x⌋

/-! The quality map (source lines 19-40).  The four values are the exact
yt-dlp format-selection strings of `QUALITY_MAP`. -/

def fmtBest : String := "b[ext=mp4]/bv*[ext=mp4]+ba[ext=m4a]/bv*+ba/best"

def fmt1080 : String :=
  "b[height<=1080][ext=mp4]/bv*[height<=1080][ext=mp4]+ba[ext=m4a]/bv*[height<=1080]+ba/best[height<=1080]"

def fmt720 : String :=
  "b[height<=720][ext=mp4]/bv*[height<=720][ext=mp4]+ba[ext=m4a]/bv*[height<=720]+ba/best[height<=720]"

def fmtAudio : String := "bestaudio/best"

/-- The `QUALITY_MAP` dict, as an association list in insertion order. -/
def QUALITY_MAP : List (String × String) :=
  [("Best (video+audio)", fmtBest),
   ("1080p (if available)", fmt1080),
   ("720p (if available)", fmt720),
   ("Audio only (m4a/mp3)", fmtAudio)]

/-- Model of Python `dict.get` on the association list (first matching key). -/
def lookupKey : List (String × String) → String → Option String
  | [], _ => none
  | (k, v) :: rest, key => if key = k then some v else lookupKey rest key

/-- Model of the test `"Audio only" in quality_key` (source lines 45 and 86). -/
def audioOnlyIn (quality_key : String) : Bool :=
  containsSub ("Audio only".data) quality_key.data

/-- The four user-facing quality choices of the design. -/
inductive QualityChoice where
  | bestProgressiveOrMerged
  | cappedAt1080p
  | cappedAt720p
  | audioOnly
deriving DecidableEq

/-- The `QUALITY_MAP` key each quality choice denotes in the source. -/
def keyOf : QualityChoice → String
  | .bestProgressiveOrMerged => "Best (video+audio)"
  | .cappedAt1080p => "1080p (if available)"
  | .cappedAt720p => "720p (if available)"
  | .audioOnly => "Audio only (m4a/mp3)"

/-! The option builder `build_ydl_opts` (source lines 42-83). -/

/-- The two yt-dlp post-processor dict shapes the source constructs:
`FFmpegExtractAudio` with `preferredcodec` and `preferredquality`, and
`FFmpegVideoRemuxer` with `preferedformat`. -/
inductive PostProcessor where
  | ffmpegExtractAudio (preferredcodec : String) (preferredquality : String)
  | ffmpegVideoRemuxer (preferedformat : String)
deriving DecidableEq

def DEFAULT_TEMPLATE : String := "%(title)s [%(id)s].%(ext)s"

/-- The fields of the `ydl_opts` dict built by `build_ydl_opts` (the
progress-hook callback and the two `None`-valued rate limits are carried by
the runner model, not here). -/
structure YdlOpts where
  outtmpl : String
  format : String
  noprogress : Bool
  nopart : Bool
  concurrent_fragment_downloads : ℕ
  retries : ℕ
  ignoreerrors : String
  postprocessors : List PostProcessor
  merge_output_format : String
  quiet : Bool
  no_warnings : Bool
  keepvideo : Bool
  writethumbnail : Bool
  writeinfojson : Bool
  format_sort : List String
deriving DecidableEq

/-- `build_ydl_opts(save_dir, quality_key, audio_only_prefer_mp3)`:
looks the quality key up with the "Best (video+audio)" entry as default,
and picks exactly one post-processor by the substring test
`"Audio only" in quality_key`. -/
def build_ydl_opts (save_dir : String) (quality_key : String)
    (audio_only_prefer_mp3 : Bool) : YdlOpts :=
  let fmt := (lookupKey QUALITY_MAP quality_key).getD fmtBest
  let postprocessors :=
    if audioOnlyIn quality_key then
      [PostProcessor.ffmpegExtractAudio
        (if audio_only_prefer_mp3 then "mp3" else "m4a") "192"]
    else
      [PostProcessor.ffmpegVideoRemuxer "mp4"]
  { outtmpl := save_dir ++ "/" ++ DEFAULT_TEMPLATE,
    format := fmt,
    noprogress := true,
    nopart := false,
    concurrent_fragment_downloads := 4,
    retries := 5,
    ignoreerrors := "only_download",
    postprocessors := postprocessors,
    merge_output_format := "mp4",
    quiet := true,
    no_warnings := true,
    keepvideo := false,
    writethumbnail := false,
    writeinfojson := false,
    format_sort := ["vcodec:h264", "acodec:aac", "ext:mp4:m4a"] }

/-- The options `run_download` builds (source line 86): the prefer-mp3 flag it
passes is `"Audio only" in quality_key and prefer_mp3`. -/
def downloadOpts (save_dir quality_key : String) (prefer_mp3 : Bool) : YdlOpts :=
  build_ydl_opts save_dir quality_key (audioOnlyIn quality_key && prefer_mp3)

/-- The format expression a quality choice derives (source line 43). -/
def formatFor (q : QualityChoice) : String :=
  (lookupKey QUALITY_MAP (keyOf q)).getD fmtBest

/-! A parser for the engine's format-selection syntax, giving the tier
structure of the expressions in `QUALITY_MAP`: `/` separates fallback tiers
(evaluated left to right, first match wins), `+` merges the components of one
tier, and each component is a selector name followed by bracketed constraint
filters such as `[ext=mp4]` or `[height<=720]`. -/

/-- Split a character list on a separator character. -/
def splitOnChar (sep : Char) : List Char → List (List Char)
  | [] => [[]]
  | c :: cs =>
    match splitOnChar sep cs with
    | [] => [[c]]
    | t :: ts => if c = sep then [] :: t :: ts else (c :: t) :: ts

/-- Read the leading decimal digits of a character list as a natural. -/
def readNat (l : List Char) : ℕ :=
  (l.takeWhile Char.isDigit).foldl (fun a c => a * 10 + (c.toNat - 48)) 0

/-- Collect the bracketed groups of a character list: the contents between
each `[` and the following `]`. -/
def bracketGroups : Bool → List Char → List Char → List (List Char)
  | _, _, [] => []
  | true, acc, c :: cs =>
    if c = ']' then acc.reverse :: bracketGroups false [] cs
    else bracketGroups true (c :: acc) cs
  | false, acc, c :: cs =>
    if c = '[' then bracketGroups true [] cs else bracketGroups false acc cs

/-- A constraint filter of one selector: a height bound `height<=n`, or any
other raw constraint such as `ext=mp4`. -/
inductive FmtFilter where
  | heightLe (n : ℕ)
  | raw (s : String)
deriving DecidableEq

/-- One merge component of a tier: a selector name and its filters. -/
structure FmtComponent where
  selector : String
  filters : List FmtFilter
deriving DecidableEq

def parseFilter (l : List Char) : FmtFilter :=
  if List.isPrefixOf ("height<=".data) l then .heightLe (readNat (l.drop 8))
  else .raw (String.mk l)

def parseComponent (l : List Char) : FmtComponent :=
  { selector := String.mk (l.takeWhile (fun c => c ≠ '[')),
    filters := (bracketGroups false [] l).map parseFilter }

/-- A tier is the list of its merge components (separated by `+`). -/
def parseTier (l : List Char) : List FmtComponent :=
  (splitOnChar '+' l).map parseComponent

/-- The ordered fallback-tier list of a format-selection expression
(tiers separated by `/`). -/
def parseFormatExpr (s : String) : List (List FmtComponent) :=
  (splitOnChar '/' s.data).map parseTier

/-- Whether a filter is a height bound. -/
def isHeightFilter : FmtFilter → Bool
  | .heightLe _ => true
  | .raw _ => false

/-- Erase all height-bound filters from every component of every tier. -/
def stripHeights (e : List (List FmtComponent)) : List (List FmtComponent) :=
  e.map fun t => t.map fun c => ⟨c.selector, c.filters.filter fun f => !isHeightFilter f⟩

/-- The height bounds occurring in a filter list. -/
def filterHeights : List FmtFilter → List ℕ
  | [] => []
  | .heightLe n :: fs => n :: filterHeights fs
  | .raw _ :: fs => filterHeights fs

/-- Every height bound occurring anywhere in a format expression. -/
def exprHeights (e : List (List FmtComponent)) : List ℕ :=
  ((e.map fun t => (t.map fun c => filterHeights c.filters).flatten).flatten)

/-! The progress events yt-dlp delivers to the hook (source lines 200-217 and
270-282).  Each field models `d.get(...)`: absent keys are `none`. -/

structure Event where
  status : Option String
  total_bytes : Option ℕ
  total_bytes_estimate : Option ℕ
  downloaded_bytes : Option ℕ
  speed : Option ℚ
  eta : Option ℚ

/-- `total = d.get("total_bytes") or d.get("total_bytes_estimate") or 0`. -/
def totalOf (e : Event) : ℕ := pyOrNat e.total_bytes (pyOrNat e.total_bytes_estimate 0)

/-- `downloaded = d.get("downloaded_bytes") or 0`. -/
def downloadedOf (e : Event) : ℕ := pyOrNat e.downloaded_bytes 0

/-- `pct = (downloaded / total * 100) if total else 0`. -/
def pctOf (e : Event) : ℚ :=
  if totalOf e ≠ 0 then (downloadedOf e : ℚ) / (totalOf e : ℚ) * 100 else 0

/-! The GUI surface.  Status and log lines are modelled structurally: each
constructor stands for one of the message strings the source formats, carrying
the data interpolated into it.  `downloading` stands for the status line
`"Downloading: {pct}%"` with its optional `"| {spd/1024/1024} MB/s"` and
`"| ETA {int(eta)}s"` suffixes (the speed is carried verbatim in bytes per
second; the display division by 2^20 and the `int` truncation are recorded by
the field types). -/

inductive UiMsg where
  | idle
  | queued
  | startingDownload (dir : String)
  | doneOk
  | downloadFailed (msg : String)
  | unexpectedError (msg : String)
  | downloading (pct : ℚ) (speedShown : Option ℚ) (etaShown : Option ℤ)
  | postProcessing
deriving DecidableEq

/-- The mutable widget and job state of `App` that `on_download`, `worker` and
the hook touch: the `downloading` flag, the two button states, the progress
bar variable, the status variable, the log text, and the number of worker
threads started so far. -/
structure AppState where
  downloading : Bool
  btn_download_enabled : Bool
  btn_cancel_enabled : Bool
  progress_var : ℚ
  status_var : UiMsg
  log : List UiMsg
  threadsStarted : ℕ

/-- `App.log`: append the message to the log text and set the status line. -/
def appLog (m : UiMsg) (s : AppState) : AppState :=
  { s with log := s.log ++ [m], status_var := m }

/-- The state right after `App.__init__`: idle, Download enabled, Cancel
disabled, progress 0, no worker. -/
def initialApp : AppState :=
  { downloading := false, btn_download_enabled := true, btn_cancel_enabled := false,
    progress_var := 0, status_var := .idle, log := [], threadsStarted := 0 }

/-- The outcomes a submission attempt can have.  The source produces the first
four; `alreadyRunning` is the spec's admission-conflict result, included so
that its absence from the code's behaviour can be stated. -/
inductive SubmitResult where
  | missingUrl
  | folderError
  | started
  | ignored
  | alreadyRunning
deriving DecidableEq

/-- `App.on_download` (source lines 182-235): reject an empty (stripped) URL,
then try to create the destination directory (`mkdirOk` models whether
`save_dir.mkdir(parents=True, exist_ok=True)` succeeds), and only then flip
the widgets into the running configuration, log "Queued…", and start the
worker thread. -/
def on_download (url : String) (mkdirOk : Bool) (s : AppState) :
    SubmitResult × AppState :=
  if pyStrip url = "" then (.missingUrl, s)
  else if mkdirOk then
    let s1 := appLog .queued
      { s with downloading := true, btn_download_enabled := false,
               btn_cancel_enabled := true, progress_var := 0 }
    (.started, { s1 with threadsStarted := s1.threadsStarted + 1 })
  else (.folderError, s)

/-- A click of the Download button: Tk only invokes the `command` of an
enabled button, so a click on the disabled button is a no-op. -/
def clickDownload (url : String) (mkdirOk : Bool) (s : AppState) :
    SubmitResult × AppState :=
  if s.btn_download_enabled then on_download url mkdirOk s else (.ignored, s)

/-- The GUI progress hook (source lines 200-217).  On a "downloading" event it
sets the progress bar to `pct` and the status line to the formatted message;
on a "finished" event it locks the bar to 100 and logs the post-processing
message; any other status is ignored. -/
def hookGUI (d : Event) (s : AppState) : AppState :=
  if d.status = some "downloading" then
    { s with progress_var := pctOf d,
             status_var := .downloading (pctOf d) (pyTruthy d.speed)
                             ((pyTruthy d.eta).map pyInt) }
  else if d.status = some "finished" then
    appLog .postProcessing { s with progress_var := 100 }
  else s

/-- The displayable snapshot the GUI exposes after an event: the progress-bar
value and the status line. -/
def snapshotOf (s : AppState) : ℚ × UiMsg := (s.progress_var, s.status_var)

/-! The job runner `run_download` (source lines 85-95) and the CLI entry
`run_cli` (source lines 245-284).  The engine (`YoutubeDL.download`) is
opaque: its outcome — normal return, a raised `DownloadError`, or any other
exception — is a parameter. -/

/-- The exceptions the engine invocation can raise. -/
inductive PyExc where
  | downloadError (msg : String)
  | otherExc (msg : String)
deriving DecidableEq

/-- The possible outcomes of the engine invocation. -/
inductive EngineOutcome where
  | ok
  | raises (e : PyExc)
deriving DecidableEq

/-- The opaque engine call `ydl.download([url])`, configured by `opts` and
resolving to the given outcome. -/
def engineRun (_opts : YdlOpts) (o : EngineOutcome) : Except PyExc Unit :=
  match o with
  | .ok => .ok ()
  | .raises e => .error e

/-- `run_download`: build the options (passing
`"Audio only" in quality_key and prefer_mp3` as the codec flag), log the
start, invoke the engine, and catch `DownloadError` and every other
`Exception`, logging exactly one failure line for each.  The result is the
list of messages delivered to the caller-supplied `log` sink; an
`Except.error` result would mean an exception escaped `run_download`. -/
def run_download (save_dir quality_key : String) (prefer_mp3 : Bool)
    (o : EngineOutcome) : Except PyExc (List UiMsg) :=
  let opts := downloadOpts save_dir quality_key prefer_mp3
  match engineRun opts o with
  | .ok _ => .ok [.startingDownload save_dir, .doneOk]
  | .error (.downloadError m) => .ok [.startingDownload save_dir, .downloadFailed m]
  | .error (.otherExc m) => .ok [.startingDownload save_dir, .unexpectedError m]

/-- Whether a logged message is a terminal failure line (one of the two
`"❌ ..."` messages). -/
def isFailureLog : UiMsg → Bool
  | .downloadFailed _ => true
  | .unexpectedError _ => true
  | _ => false

/-- The messages a runner result delivered to the sink. -/
def logsOf : Except PyExc (List UiMsg) → List UiMsg
  | .ok msgs => msgs
  | .error _ => []

/-- Whether a runner result returned normally. -/
def exceptOk {ε α : Type} : Except ε α → Bool
  | .ok _ => true
  | .error _ => false

/-- How `run_cli` can fail to produce its output: the unguarded
`outdir.mkdir(...)` (source line 265) raising before the engine is touched,
or an exception escaping `run_download` (provably impossible). -/
inductive CliError where
  | mkdirFailed
  | uncaught (e : PyExc)
deriving DecidableEq

/-- `run_cli` after argument parsing: create the output directory — with no
try/except, so a failure aborts synchronously — then run the download. -/
def run_cli (mkdirOk : Bool) (out_dir quality : String) (prefer_mp3 : Bool)
    (o : EngineOutcome) : Except CliError (List UiMsg) :=
  if mkdirOk then
    match run_download out_dir quality prefer_mp3 o with
    | .ok msgs => .ok msgs
    | .error e => .error (.uncaught e)
  else .error .mkdirFailed

/-! Concrete inputs used by counterexamples and witnesses. -/

/-- A "downloading" event with both total-bytes fields absent and 500000
bytes downloaded (the input named by the spec), no speed, no ETA. -/
def evNoTotal : Event :=
  { status := some "downloading", total_bytes := none, total_bytes_estimate := none,
    downloaded_bytes := some 500000, speed := none, eta := none }

/-- A bare "finished" event. -/
def evFinished : Event :=
  { status := some "finished", total_bytes := none, total_bytes_estimate := none,
    downloaded_bytes := none, speed := none, eta := none }

/-! Theorems. -/

/-- Helper for C1: a submission that started a worker leaves the Download
button disabled (it is re-enabled only by the worker's `finally` block, i.e.
when the job reaches a terminal phase). -/
theorem started_disables_button (u : String) (ok : Bool) (s : AppState)
    (h : (clickDownload u ok s).1 = SubmitResult.started) :
    (clickDownload u ok s).2.btn_download_enabled = false := by
  unfold clickDownload on_download at h ⊢
  by_cases hb : s.btn_download_enabled
  · by_cases hu : pyStrip u = ""
    · simp [hb, hu] at h
    · by_cases hm : ok
      · simp [hb, hu, hm, appLog]
      · simp [hb, hu, hm] at h
  · simp [hb] at h

/-- Helper for C1: a click of the Download button while it is disabled is a
no-op. -/
theorem click_on_disabled_button (u : String) (ok : Bool) (s : AppState)
    (h : s.btn_download_enabled = false) :
    clickDownload u ok s = (SubmitResult.ignored, s) := by
  unfold clickDownload
  rw [h]
  simp

/-- C1 (counterexample): submitting a second job while the first is in flight
does not produce an `AlreadyRunning` result.  From the initial state, a first
click starts a job (the `downloading` flag is set); a second click while that
job has not finished yields `ignored` — the Download button is disabled — and
`ignored` is not `alreadyRunning`. -/
theorem c1_counterexample :
    (clickDownload "https://v" true initialApp).2.downloading = true ∧
    (clickDownload "x" true (clickDownload "https://v" true initialApp).2).1 =
      SubmitResult.ignored ∧
    SubmitResult.ignored ≠ SubmitResult.alreadyRunning := by decide

/-- C1 (amended): while a prior job has not reached a terminal phase, a
second submission (a click of the Download button) is silently ignored — no
explicit `AlreadyRunning` result is produced — and the in-flight job's state
(its `downloading` flag, progress value, log, and worker-thread count) is left
completely unchanged, so no second background worker is started. -/
theorem c1_second_submission_ignored (u1 u2 : String) (ok1 ok2 : Bool)
    (s : AppState) (h : (clickDownload u1 ok1 s).1 = SubmitResult.started) :
    clickDownload u2 ok2 (clickDownload u1 ok1 s).2 =
      (SubmitResult.ignored, (clickDownload u1 ok1 s).2) :=
  click_on_disabled_button u2 ok2 _ (started_disables_button u1 ok1 s h)

/-- C1 (witness): a concrete run of the amended statement: the first click
from the initial state starts a job, and the next click is ignored with the
state untouched. -/
theorem c1_second_submission_ignored_witness :
    (clickDownload "https://v" true initialApp).1 = SubmitResult.started ∧
    clickDownload "x" true (clickDownload "https://v" true initialApp).2 =
      (SubmitResult.ignored, (clickDownload "https://v" true initialApp).2) :=
  ⟨by decide, c1_second_submission_ignored "https://v" "x" true true initialApp (by decide)⟩

/-- C2 (counterexample): on a "downloading" event with both total-bytes
fields absent and 500000 bytes downloaded, the hook reports the completion
fraction as 0 — the progress bar is set to 0 and the status line shows a 0
percentage — not as an unknown value. -/
theorem c2_counterexample :
    (hookGUI evNoTotal initialApp).progress_var = 0 ∧
    (hookGUI evNoTotal initialApp).status_var = UiMsg.downloading 0 none none :=
  ⟨rfl, rfl⟩

/-- C2 (amended): for every "downloading" event whose total-bytes and
total-bytes-estimate are absent or zero, the hook reports the completion
fraction as 0 (not as unknown and not as an error), while the rate and ETA
are carried in the status line exactly when present and nonzero and omitted
otherwise. -/
theorem c2_unknown_total (e : Event) (s : AppState)
    (hst : e.status = some "downloading") (ht : totalOf e = 0) :
    (hookGUI e s).progress_var = 0 ∧
    (hookGUI e s).status_var =
      UiMsg.downloading 0 (pyTruthy e.speed) ((pyTruthy e.eta).map pyInt) := by
  unfold hookGUI
  rw [hst]
  simp [pctOf, ht]

/-- C2 (witness): the amended statement at the spec's concrete event. -/
theorem c2_unknown_total_witness :
    evNoTotal.status = some "downloading" ∧ totalOf evNoTotal = 0 ∧
    ((hookGUI evNoTotal initialApp).progress_var = 0 ∧
     (hookGUI evNoTotal initialApp).status_var =
       UiMsg.downloading 0 (pyTruthy evNoTotal.speed)
         ((pyTruthy evNoTotal.eta).map pyInt)) :=
  ⟨rfl, rfl, c2_unknown_total evNoTotal initialApp rfl rfl⟩

/-- C3 (counterexample): the format expression derived for the AudioOnly
choice does not consist of one fallback tier: `"bestaudio/best"` has two. -/
theorem c3_counterexample :
    (parseFormatExpr (formatFor QualityChoice.audioOnly)).length ≠ 1 := by decide

/-- C3 (amended): the AudioOnly format expression consists of exactly two
fallback tiers, in order: the best available audio-only stream, then the
absolute best stream; the tier list has length 2. -/
theorem c3_audio_two_tiers :
    parseFormatExpr (formatFor QualityChoice.audioOnly) =
      [[⟨"bestaudio", []⟩], [⟨"best", []⟩]] := by decide

/-- C4: for every quality choice and preferMp3 flag, the options built along
the `run_download` call derive exactly one post-processing directive:
AudioOnly with preferMp3 gives audio extraction to mp3 at quality "192",
AudioOnly without it gives extraction to m4a at "192", and every other choice
gives a remux to mp4 regardless of the flag. -/
theorem c4_postprocessing (d : String) (q : QualityChoice) (prefer : Bool) :
    (downloadOpts d (keyOf q) prefer).postprocessors =
      (if q = QualityChoice.audioOnly then
        [PostProcessor.ffmpegExtractAudio (if prefer then "mp3" else "m4a") "192"]
      else [PostProcessor.ffmpegVideoRemuxer "mp4"]) := by
  cases q <;> cases prefer <;> rfl

/-- C5: for every outcome of the engine invocation — normal return, a raised
`DownloadError`, or any other exception — `run_download` returns normally
(no exception escapes it), and the sink receives exactly one terminal failure
message precisely when the engine failed. -/
theorem c5_no_uncaught (d k : String) (p : Bool) (o : EngineOutcome) :
    exceptOk (run_download d k p o) = true ∧
    ((logsOf (run_download d k p o)).filter isFailureLog).length =
      (match o with | .ok => 0 | .raises _ => 1) := by
  cases o with
  | ok => exact ⟨rfl, rfl⟩
  | raises e => cases e <;> exact ⟨rfl, rfl⟩

/-- C6: in the CappedAt720p format expression every height bound is ≤ 720 and
in the CappedAt1080p one every height bound is ≤ 1080; each capped expression
has four tiers whose structure, after erasing the height bounds, is exactly
the BestProgressiveOrMerged expression, and its final fallback tier is the
best available stream at or below the cap. -/
theorem c6_capped_structure :
    ((exprHeights (parseFormatExpr (formatFor QualityChoice.cappedAt720p))).all
      (fun n => n ≤ 720)) = true ∧
    ((exprHeights (parseFormatExpr (formatFor QualityChoice.cappedAt1080p))).all
      (fun n => n ≤ 1080)) = true ∧
    (parseFormatExpr (formatFor QualityChoice.cappedAt720p)).length = 4 ∧
    (parseFormatExpr (formatFor QualityChoice.cappedAt1080p)).length = 4 ∧
    stripHeights (parseFormatExpr (formatFor QualityChoice.cappedAt720p)) =
      parseFormatExpr (formatFor QualityChoice.bestProgressiveOrMerged) ∧
    stripHeights (parseFormatExpr (formatFor QualityChoice.cappedAt1080p)) =
      parseFormatExpr (formatFor QualityChoice.bestProgressiveOrMerged) ∧
    (parseFormatExpr (formatFor QualityChoice.cappedAt720p)).getLast? =
      some [⟨"best", [.heightLe 720]⟩] ∧
    (parseFormatExpr (formatFor QualityChoice.cappedAt1080p)).getLast? =
      some [⟨"best", [.heightLe 1080]⟩] := by decide

/-- C7: the BestProgressiveOrMerged format expression is an ordered list of
exactly four fallback tiers: (1) the best progressive mp4 (`b[ext=mp4]`, a
single already-merged stream), (2) the best mp4 video merged with the best m4a
audio, (3) the best video of any kind merged with the best audio of any kind,
and (4) the absolute best single stream. -/
theorem c7_best_four_tiers :
    parseFormatExpr (formatFor QualityChoice.bestProgressiveOrMerged) =
      [[⟨"b", [.raw "ext=mp4"]⟩],
       [⟨"bv*", [.raw "ext=mp4"]⟩, ⟨"ba", [.raw "ext=m4a"]⟩],
       [⟨"bv*", []⟩, ⟨"ba", []⟩],
       [⟨"best", []⟩]] := by decide

/-- C8: when the destination directory cannot be created, submission fails
synchronously with the configuration error and nothing else happens: in the
GUI a Download click returns the folder error with the state — including the
worker-thread count — completely unchanged, and in the CLI the unguarded
`mkdir` aborts the run before the engine is ever invoked. -/
theorem c8_config_error (u dir quality : String) (p : Bool) (s : AppState)
    (o : EngineOutcome) (hbtn : s.btn_download_enabled = true)
    (hu : pyStrip u ≠ "") :
    clickDownload u false s = (SubmitResult.folderError, s) ∧
    run_cli false dir quality p o = Except.error CliError.mkdirFailed := by
  constructor
  · simp [clickDownload, on_download, hbtn, hu]
  · rfl

/-- C8 (witness): the statement at a concrete URL, state, and engine
outcome. -/
theorem c8_config_error_witness :
    initialApp.btn_download_enabled = true ∧ pyStrip "https://v" ≠ "" ∧
    (clickDownload "https://v" false initialApp = (SubmitResult.folderError, initialApp) ∧
     run_cli false "out" "Best (video+audio)" false EngineOutcome.ok =
       Except.error CliError.mkdirFailed) :=
  ⟨rfl, by decide,
   c8_config_error "https://v" "out" "Best (video+audio)" false initialApp
     EngineOutcome.ok rfl (by decide)⟩

/-- C9: processing a "finished" event is idempotent: feeding it twice in a
row yields two identical displayable snapshots, with the progress locked at
100 and the status at the post-processing message both times, so a repeated
terminal event does not change the already-terminal snapshot. -/
theorem c9_finished_idempotent (e : Event) (s : AppState)
    (h : e.status = some "finished") :
    snapshotOf (hookGUI e (hookGUI e s)) = snapshotOf (hookGUI e s) ∧
    (hookGUI e s).progress_var = 100 ∧
    (hookGUI e s).status_var = UiMsg.postProcessing := by
  unfold hookGUI snapshotOf appLog
  rw [h]
  simp

/-- C9 (witness): the statement at a concrete "finished" event and the
initial state. -/
theorem c9_finished_idempotent_witness :
    evFinished.status = some "finished" ∧
    (snapshotOf (hookGUI evFinished (hookGUI evFinished initialApp)) =
       snapshotOf (hookGUI evFinished initialApp) ∧
     (hookGUI evFinished initialApp).progress_var = 100 ∧
     (hookGUI evFinished initialApp).status_var = UiMsg.postProcessing) :=
  ⟨rfl, c9_finished_idempotent evFinished initialApp rfl⟩

/-- C10 (counterexample): a quality key that is not in the map but contains
the substring "Audio only" — such as `"Audio only!"` — falls back to the
"Best (video+audio)" format expression yet receives the audio-extraction
post-processor, not the remux-to-mp4 one. -/
theorem c10_counterexample :
    lookupKey QUALITY_MAP "Audio only!" = none ∧
    (downloadOpts "out" "Audio only!" false).format = fmtBest ∧
    (downloadOpts "out" "Audio only!" false).postprocessors =
      [PostProcessor.ffmpegExtractAudio "m4a" "192"] ∧
    (downloadOpts "out" "Audio only!" false).postprocessors ≠
      [PostProcessor.ffmpegVideoRemuxer "mp4"] := by decide

/-- C10 (amended): the option builder is total over arbitrary quality keys:
every key not present in the map falls back to the "Best (video+audio)"
format expression, and it additionally receives the remux-to-mp4
post-processor exactly when the key does not contain the substring
"Audio only". -/
theorem c10_fallback (d k : String) (p : Bool)
    (h : lookupKey QUALITY_MAP k = none) :
    (downloadOpts d k p).format = fmtBest ∧
    (audioOnlyIn k = false →
      (downloadOpts d k p).postprocessors = [PostProcessor.ffmpegVideoRemuxer "mp4"]) := by
  constructor
  · simp [downloadOpts, build_ydl_opts, h]
  · intro ha
    simp [downloadOpts, build_ydl_opts, ha]

/-- C10 (witness): the amended statement at the concrete unknown key
`"custom"`. -/
theorem c10_fallback_witness :
    lookupKey QUALITY_MAP "custom" = none ∧
    (downloadOpts "out" "custom" true).format = fmtBest ∧
    (downloadOpts "out" "custom" true).postprocessors =
      [PostProcessor.ffmpegVideoRemuxer "mp4"] :=
  ⟨rfl, (c10_fallback "out" "custom" true rfl).1,
   (c10_fallback "out" "custom" true rfl).2 rfl⟩

end Youtube
